import Mathlib

/-!
Shallow embedding of the schedule/condition/process-supervision subsystem of
src/pmatic/manager.py: the Events ring buffer, the Scheduler (collection
operations, background loop, load/save), the Schedule entity with its
config round-trip, the Condition variants, and the ScriptRunner supervisor.

Python values appearing in configuration records and in dynamically typed
attributes are modelled by the PyVal type.  Python exceptions are modelled
with Except PyErr.  Object attribute dictionaries are modelled as ordered
association lists, matching the insertion-ordered dictionaries of Python.
-/

/-- A JSON-compatible Python value as it appears in configuration records
and dynamically typed object attributes. -/
inductive PyVal where
  | str : String → PyVal
  | int : Int → PyVal
  | bool : Bool → PyVal
  | none : PyVal
  | list : List PyVal → PyVal
  | dict : List (String × PyVal) → PyVal

mutual

/-- Structural equality test on PyVal (the derive handler does not support
this nested inductive, so the instance is built by hand). -/
def PyVal.beq : PyVal → PyVal → Bool
  | PyVal.str a, PyVal.str b => a == b
  | PyVal.int a, PyVal.int b => a == b
  | PyVal.bool a, PyVal.bool b => a == b
  | PyVal.none, PyVal.none => true
  | PyVal.list xs, PyVal.list ys => PyVal.beqL xs ys
  | PyVal.dict xs, PyVal.dict ys => PyVal.beqD xs ys
  | _, _ => false

/-- Structural equality test on lists of PyVal. -/
def PyVal.beqL : List PyVal → List PyVal → Bool
  | [], [] => true
  | x :: xs, y :: ys => PyVal.beq x y && PyVal.beqL xs ys
  | _, _ => false

/-- Structural equality test on string-keyed dictionaries of PyVal. -/
def PyVal.beqD : List (String × PyVal) → List (String × PyVal) → Bool
  | [], [] => true
  | (k1, v1) :: xs, (k2, v2) :: ys =>
    k1 == k2 && PyVal.beq v1 v2 && PyVal.beqD xs ys
  | _, _ => false

end

mutual

/-- The equality test on PyVal decides propositional equality. -/
def PyVal.beq_iff : (a b : PyVal) → (PyVal.beq a b = true ↔ a = b)
  | PyVal.str a, PyVal.str b => by simp [PyVal.beq]
  | PyVal.str _, PyVal.int _ => by simp [PyVal.beq]
  | PyVal.str _, PyVal.bool _ => by simp [PyVal.beq]
  | PyVal.str _, PyVal.none => by simp [PyVal.beq]
  | PyVal.str _, PyVal.list _ => by simp [PyVal.beq]
  | PyVal.str _, PyVal.dict _ => by simp [PyVal.beq]
  | PyVal.int _, PyVal.str _ => by simp [PyVal.beq]
  | PyVal.int a, PyVal.int b => by simp [PyVal.beq]
  | PyVal.int _, PyVal.bool _ => by simp [PyVal.beq]
  | PyVal.int _, PyVal.none => by simp [PyVal.beq]
  | PyVal.int _, PyVal.list _ => by simp [PyVal.beq]
  | PyVal.int _, PyVal.dict _ => by simp [PyVal.beq]
  | PyVal.bool _, PyVal.str _ => by simp [PyVal.beq]
  | PyVal.bool a, PyVal.bool b => by simp [PyVal.beq]
  | PyVal.bool _, PyVal.int _ => by simp [PyVal.beq]
  | PyVal.bool _, PyVal.none => by simp [PyVal.beq]
  | PyVal.bool _, PyVal.list _ => by simp [PyVal.beq]
  | PyVal.bool _, PyVal.dict _ => by simp [PyVal.beq]
  | PyVal.none, PyVal.str _ => by simp [PyVal.beq]
  | PyVal.none, PyVal.int _ => by simp [PyVal.beq]
  | PyVal.none, PyVal.bool _ => by simp [PyVal.beq]
  | PyVal.none, PyVal.none => by simp [PyVal.beq]
  | PyVal.none, PyVal.list _ => by simp [PyVal.beq]
  | PyVal.none, PyVal.dict _ => by simp [PyVal.beq]
  | PyVal.list _, PyVal.str _ => by simp [PyVal.beq]
  | PyVal.list _, PyVal.int _ => by simp [PyVal.beq]
  | PyVal.list _, PyVal.bool _ => by simp [PyVal.beq]
  | PyVal.list _, PyVal.none => by simp [PyVal.beq]
  | PyVal.list xs, PyVal.list ys => by
    simpa [PyVal.beq] using PyVal.beqL_iff xs ys
  | PyVal.list _, PyVal.dict _ => by simp [PyVal.beq]
  | PyVal.dict _, PyVal.str _ => by simp [PyVal.beq]
  | PyVal.dict _, PyVal.int _ => by simp [PyVal.beq]
  | PyVal.dict _, PyVal.bool _ => by simp [PyVal.beq]
  | PyVal.dict _, PyVal.none => by simp [PyVal.beq]
  | PyVal.dict _, PyVal.list _ => by simp [PyVal.beq]
  | PyVal.dict xs, PyVal.dict ys => by
    simpa [PyVal.beq] using PyVal.beqD_iff xs ys

/-- The list equality test decides propositional equality. -/
def PyVal.beqL_iff : (xs ys : List PyVal) → (PyVal.beqL xs ys = true ↔ xs = ys)
  | [], [] => by simp [PyVal.beqL]
  | [], _ :: _ => by simp [PyVal.beqL]
  | _ :: _, [] => by simp [PyVal.beqL]
  | x :: xs, y :: ys => by
    simp [PyVal.beqL, PyVal.beq_iff x y, PyVal.beqL_iff xs ys]

/-- The dictionary equality test decides propositional equality. -/
def PyVal.beqD_iff : (xs ys : List (String × PyVal)) →
    (PyVal.beqD xs ys = true ↔ xs = ys)
  | [], [] => by simp [PyVal.beqD]
  | [], _ :: _ => by simp [PyVal.beqD]
  | _ :: _, [] => by simp [PyVal.beqD]
  | (k1, v1) :: xs, (k2, v2) :: ys => by
    simp [PyVal.beqD, PyVal.beq_iff v1 v2, PyVal.beqD_iff xs ys, and_assoc]

end

instance : DecidableEq PyVal :=
  fun a b => decidable_of_iff (PyVal.beq a b = true) (PyVal.beq_iff a b)

/-- The Python exceptions raised by the modelled code paths. -/
inductive PyErr where
  | keyError : PyErr
  | attributeError : PyErr
  | indexError : PyErr
  | typeError : PyErr
  | pmUserError : PyErr
deriving DecidableEq

-- String constants for the attribute and configuration keys of the source.

def sTypeName : String := "type_name"

def sConditions : String := "conditions"

def sIsRunning : String := "is_running"

def sId : String := "id"

def sName : String := "name"

def sKeepRunning : String := "keep_running"

def sScript : String := "script"

def sLastTriggered : String := "last_triggered"

def sDeviceAddress : String := "device_address"

def sChannelAddress : String := "channel_address"

def sParamId : String := "param_id"

def sEventType : String := "event_type"

def sOnStartup : String := "on_startup"

def sOnCCUInitialized : String := "on_ccu_initialized"

def sOnDeviceEvent : String := "on_device_event"

def sOnTime : String := "on_time"

def sUpdated : String := "updated"

def sChanged : String := "changed"

def sRunnerAttr : String := "_runner"

def sManagerAttr : String := "_manager"

def sEmpty : String := ""

/-- First-match lookup in an attribute or configuration dictionary,
modelling Python dictionary lookup (keys are unique in Python dicts, so
first match is exact). -/
def lookupAttr (attrs : List (String × PyVal)) (k : String) : Option PyVal :=
  match attrs with
  | [] => Option.none
  | kv :: rest => if kv.1 = k then Option.some kv.2 else lookupAttr rest k

/-- In-place update or append, modelling assignment into an
insertion-ordered Python dictionary (setattr into an instance dict). -/
def insertAttr (attrs : List (String × PyVal)) (k : String) (v : PyVal) :
    List (String × PyVal) :=
  match attrs with
  | [] => [(k, v)]
  | kv :: rest => if kv.1 = k then (k, v) :: rest else kv :: insertAttr rest k v

/-- Python subscript cfg[k] on a dictionary: KeyError when the key is
missing. -/
def dictGet (attrs : List (String × PyVal)) (k : String) : Except PyErr PyVal :=
  match lookupAttr attrs k with
  | Option.none => Except.error PyErr.keyError
  | Option.some v => Except.ok v

/-- Left fold through Except, modelling a Python for loop whose body may
raise: the first raised exception aborts the loop and propagates. -/
def foldExcept (step : β → α → Except PyErr β) (b : β) : List α → Except PyErr β
  | [] => Except.ok b
  | x :: xs =>
    match step b x with
    | Except.error e => Except.error e
    | Except.ok b2 => foldExcept step b2 xs

/-- Element-wise map through Except, modelling a Python list comprehension
whose body may raise. -/
def mapExcept (f : α → Except PyErr β) : List α → Except PyErr (List β)
  | [] => Except.ok []
  | x :: xs =>
    match f x with
    | Except.error e => Except.error e
    | Except.ok y =>
      match mapExcept f xs with
      | Except.error e => Except.error e
      | Except.ok ys => Except.ok (y :: ys)

-- Live device catalog (the external collaborator of spec section 6;
-- the code in ConditionOnDeviceEvent.from_config resolves addresses
-- against it via ccu.devices.query(...).get, channel_by_address and
-- channel.values.get).

/-- A live parameter object of the device catalog. -/
structure Param where
  id : String
  title : String
deriving DecidableEq

/-- A live channel object: an address and a dictionary of parameters keyed
by parameter id. -/
structure Channel where
  address : String
  values : List (String × Param)
deriving DecidableEq

/-- A live device object: an address and its channels. -/
structure Device where
  address : String
  channels : List Channel
deriving DecidableEq

/-- The live device catalog. -/
structure Catalog where
  devices : List Device
deriving DecidableEq

/-- Models ccu.devices.query(device_address=a).get(a): the device with the
given address, or None.  A non-string key matches nothing. -/
def Catalog.find_device (cat : Catalog) (v : PyVal) : Option Device :=
  cat.devices.find? (fun d => decide (v = PyVal.str d.address))

/-- Models device.channel_by_address(a); the source wraps the KeyError of
a missing address in try/except, so the model returns an Option. -/
def Device.channel_by_address (dev : Device) (v : PyVal) : Option Channel :=
  dev.channels.find? (fun c => decide (v = PyVal.str c.address))

/-- Models channel.values.get(param_id): None when missing. -/
def Channel.values_get (ch : Channel) (v : PyVal) : Option Param :=
  (ch.values.find? (fun kv => decide (v = PyVal.str kv.1))).map (fun kv => kv.2)

-- Condition variants (manager.py lines 1754-1944).

/-- The parameterless condition classes: ConditionOnStartup,
ConditionOnCCUInitialized and ConditionOnTime all inherit the base
Condition behaviour unchanged. -/
inductive SimpleCondType where
  | onStartup : SimpleCondType
  | onCCUInitialized : SimpleCondType
  | onTime : SimpleCondType
deriving DecidableEq

/-- The class attribute type_name of the parameterless condition classes. -/
def SimpleCondType.type_name : SimpleCondType → String
  | SimpleCondType.onStartup => sOnStartup
  | SimpleCondType.onCCUInitialized => sOnCCUInitialized
  | SimpleCondType.onTime => sOnTime

/-- The instance fields of ConditionOnDeviceEvent: live references resolved
against the catalog, all initialized to None by the constructor. -/
structure DevEventFields where
  device : Option Device
  channel : Option Channel
  param : Option Param
  event_type : PyVal
deriving DecidableEq

/-- A freshly constructed ConditionOnDeviceEvent: every field is None. -/
def DevEventFields.new : DevEventFields :=
  ⟨Option.none, Option.none, Option.none, PyVal.none⟩

/-- The variant-specific data of a condition object. -/
inductive CondData where
  | simple : SimpleCondType → CondData
  | onDeviceEvent : DevEventFields → CondData
deriving DecidableEq

/-- A condition object: its variant data plus the remaining instance
attribute dictionary (filled by the setattr loop of the base
Condition.from_config and by Schedule.add_condition assigning id). -/
structure Condition where
  data : CondData
  attrs : List (String × PyVal)
deriving DecidableEq

/-- The registry classes returned by Condition.get. -/
inductive CondClass where
  | onStartup : CondClass
  | onCCUInitialized : CondClass
  | onDeviceEvent : CondClass
  | onTime : CondClass
deriving DecidableEq

/-- Condition.get(type_name): scans the subclasses (ConditionOnStartup,
ConditionOnCCUInitialized, ConditionOnDeviceEvent, ConditionOnTime) for a
matching class attribute type_name; None when unrecognized.  A non-string
stored value compares unequal to every class type_name in Python. -/
def Condition.get? (v : PyVal) : Option CondClass :=
  if v = PyVal.str sOnStartup then Option.some CondClass.onStartup
  else if v = PyVal.str sOnCCUInitialized then Option.some CondClass.onCCUInitialized
  else if v = PyVal.str sOnDeviceEvent then Option.some CondClass.onDeviceEvent
  else if v = PyVal.str sOnTime then Option.some CondClass.onTime
  else Option.none

/-- The class attribute type_name of the class of a condition object. -/
def Condition.classTypeName (c : Condition) : String :=
  match c.data with
  | CondData.simple t => t.type_name
  | CondData.onDeviceEvent _ => sOnDeviceEvent

/-- Python attribute read self.type_name: the instance attribute when the
setattr loop created one, otherwise the class attribute. -/
def Condition.type_name_val (c : Condition) : PyVal :=
  match lookupAttr c.attrs sTypeName with
  | Option.some v => v
  | Option.none => PyVal.str c.classTypeName

/-- The setattr loop of the base Condition.from_config: every key of the
record becomes an instance attribute (the Condition class has no
properties, so no assignment can fail). -/
def condSetattrs (attrs : List (String × PyVal)) (cfg : List (String × PyVal)) :
    List (String × PyVal) :=
  cfg.foldl (fun a kv => insertAttr a kv.1 kv.2) attrs

/-- ConditionOnDeviceEvent.from_config (manager.py lines 1833-1848): looks
up device_address in the record and resolves it against the catalog,
returning early (fields left None) when the device, channel or parameter
does not resolve; only missing record keys raise (KeyError).  The record
keys are read strictly in source order, so a later key is never touched
once an earlier lookup failed to resolve. -/
def ConditionOnDeviceEvent.from_config (cat : Catalog)
    (cfg : List (String × PyVal)) : Except PyErr DevEventFields :=
  match dictGet cfg sDeviceAddress with
  | Except.error e => Except.error e
  | Except.ok dva =>
    match cat.find_device dva with
    | Option.none => Except.ok DevEventFields.new
    | Option.some dev =>
      match dictGet cfg sChannelAddress with
      | Except.error e => Except.error e
      | Except.ok cha =>
        match dev.channel_by_address cha with
        | Option.none =>
          Except.ok ⟨Option.some dev, Option.none, Option.none, PyVal.none⟩
        | Option.some ch =>
          match dictGet cfg sParamId with
          | Except.error e => Except.error e
          | Except.ok pid =>
            match ch.values_get pid with
            | Option.none =>
              Except.ok ⟨Option.some dev, Option.some ch, Option.none, PyVal.none⟩
            | Option.some p =>
              match dictGet cfg sEventType with
              | Except.error e => Except.error e
              | Except.ok et =>
                Except.ok ⟨Option.some dev, Option.some ch, Option.some p, et⟩

/-- Condition construction plus from_config dispatch for a registry class:
the parameterless classes run the base setattr loop, ConditionOnDeviceEvent
runs its overriding from_config. -/
def Condition.load_config (cat : Catalog) (cls : CondClass)
    (cdict : List (String × PyVal)) : Except PyErr Condition :=
  match cls with
  | CondClass.onStartup =>
    Except.ok ⟨CondData.simple SimpleCondType.onStartup, condSetattrs [] cdict⟩
  | CondClass.onCCUInitialized =>
    Except.ok ⟨CondData.simple SimpleCondType.onCCUInitialized, condSetattrs [] cdict⟩
  | CondClass.onTime =>
    Except.ok ⟨CondData.simple SimpleCondType.onTime, condSetattrs [] cdict⟩
  | CondClass.onDeviceEvent =>
    match ConditionOnDeviceEvent.from_config cat cdict with
    | Except.error e => Except.error e
    | Except.ok f => Except.ok ⟨CondData.onDeviceEvent f, []⟩

/-- Condition.to_config (and the ConditionOnDeviceEvent override): the base
emits the type_name; the device-event override additionally reads
self.device.address, self.channel.address and self.param.id, which raises
AttributeError on a None reference, in that evaluation order. -/
def Condition.to_config (c : Condition) : Except PyErr PyVal :=
  match c.data with
  | CondData.simple _ => Except.ok (PyVal.dict [(sTypeName, c.type_name_val)])
  | CondData.onDeviceEvent f =>
    match f.device with
    | Option.none => Except.error PyErr.attributeError
    | Option.some d =>
      match f.channel with
      | Option.none => Except.error PyErr.attributeError
      | Option.some ch =>
        match f.param with
        | Option.none => Except.error PyErr.attributeError
        | Option.some p =>
          Except.ok (PyVal.dict [(sTypeName, c.type_name_val),
            (sDeviceAddress, PyVal.str d.address),
            (sChannelAddress, PyVal.str ch.address),
            (sParamId, PyVal.str p.id),
            (sEventType, f.event_type)])

-- ScriptRunner (manager.py lines 1328-1371) and Schedule (lines 1691-1750).

/-- The supervisor object for one script execution.  The thread-liveness
flag models threading.Thread.is_alive: false before start, true from start
until the run method terminates. -/
structure ScriptRunner where
  script : PyVal
  output : List String
  exit_code : Option Int
  started : Nat
  finished : Option Nat
  threadAlive : Bool
deriving DecidableEq

/-- ScriptRunner(script): records the construction time as started. -/
def ScriptRunner.new_runner (script : PyVal) (now : Nat) : ScriptRunner :=
  ⟨script, [], Option.none, now, Option.none, false⟩

/-- runner.start(): the supervising thread becomes alive. -/
def ScriptRunner.start (r : ScriptRunner) : ScriptRunner :=
  { r with threadAlive := true }

/-- runner.is_alive(). -/
def ScriptRunner.is_alive (r : ScriptRunner) : Bool :=
  r.threadAlive

/-- A Schedule object.  The typed fields mirror the attributes assigned in
the constructor; extra models further instance attributes created by the
setattr loop of from_config.  The object references _manager (back
reference) and _runner are kept out of the attribute dictionary: the
runner lives in the dedicated runner field, and the claims below never
store to those two keys. -/
structure Schedule where
  id : PyVal
  name : PyVal
  keep_running : PyVal
  script : PyVal
  conditions : List Condition
  last_triggered : PyVal
  runner : Option ScriptRunner
  extra : List (String × PyVal)
deriving DecidableEq

/-- Schedule(manager): the freshly constructed schedule. -/
def Schedule.new : Schedule :=
  ⟨PyVal.none, PyVal.str sEmpty, PyVal.bool false, PyVal.str sEmpty, [],
   PyVal.none, Option.none, []⟩

/-- The property is_running: self._runner and self._runner.is_alive(). -/
def Schedule.is_running (s : Schedule) : Bool :=
  match s.runner with
  | Option.none => false
  | Option.some r => r.is_alive

/-- schedule.add_runner(runner). -/
def Schedule.add_runner (s : Schedule) (r : ScriptRunner) : Schedule :=
  { s with runner := Option.some r }

/-- schedule.add_condition(condition): assigns the positional condition id
(an instance attribute) and appends. -/
def Schedule.add_condition (s : Schedule) (c : Condition) : Schedule :=
  { s with conditions :=
      s.conditions ++ [⟨c.data, insertAttr c.attrs sId (PyVal.int s.conditions.length)⟩] }

/-- Python setattr on a Schedule instance: the property is_running has no
setter and raises AttributeError; every other key either overwrites the
matching constructor-assigned attribute or creates a new instance
attribute (recorded in extra). -/
def Schedule.pySetattr (s : Schedule) (k : String) (v : PyVal) :
    Except PyErr Schedule :=
  if k = sIsRunning then Except.error PyErr.attributeError
  else Except.ok (
    if k = sId then { s with id := v }
    else if k = sName then { s with name := v }
    else if k = sKeepRunning then { s with keep_running := v }
    else if k = sScript then { s with script := v }
    else if k = sLastTriggered then { s with last_triggered := v }
    else { s with extra := insertAttr s.extra k v })

/-- One condition record inside the conditions list of a schedule record:
condition_cfg[type_name] (KeyError when missing, TypeError when the
element is not a dictionary), Condition.get lookup (PMUserError when the
type is unrecognized), construction and from_config, then add_condition. -/
def Schedule.cond_step (cat : Catalog) (s : Schedule) (ccfg : PyVal) :
    Except PyErr Schedule :=
  match ccfg with
  | PyVal.dict cdict =>
    match dictGet cdict sTypeName with
    | Except.error e => Except.error e
    | Except.ok tn =>
      match Condition.get? tn with
      | Option.none => Except.error PyErr.pmUserError
      | Option.some cls =>
        match Condition.load_config cat cls cdict with
        | Except.error e => Except.error e
        | Except.ok c => Except.ok (s.add_condition c)
  | _ => Except.error PyErr.typeError

/-- One key of a schedule record inside Schedule.from_config: a key other
than conditions is setattr-ed; the conditions key iterates its list of
condition records (a non-list value fails when its elements are
subscripted). -/
def Schedule.key_step (cat : Catalog) (s : Schedule) (kv : String × PyVal) :
    Except PyErr Schedule :=
  if kv.1 = sConditions then
    match kv.2 with
    | PyVal.list conds => foldExcept (Schedule.cond_step cat) s conds
    | _ => Except.error PyErr.typeError
  else s.pySetattr kv.1 kv.2

/-- Schedule.from_config (manager.py lines 1724-1736): iterates the record
in insertion order. -/
def Schedule.from_config (cat : Catalog) (s : Schedule)
    (cfg : List (String × PyVal)) : Except PyErr Schedule :=
  foldExcept (Schedule.key_step cat) s cfg

/-- Schedule.to_config (manager.py lines 1739-1745): the condition list
comprehension runs first, so a raising condition aborts the whole record. -/
def Schedule.to_config (s : Schedule) : Except PyErr PyVal :=
  match mapExcept Condition.to_config s.conditions with
  | Except.error e => Except.error e
  | Except.ok cs =>
    Except.ok (PyVal.dict [(sName, s.name), (sKeepRunning, s.keep_running),
      (sScript, s.script), (sConditions, PyVal.list cs)])

-- Scheduler collection operations (manager.py lines 1629-1656) with
-- Python list subscript semantics (negative indices count from the end).

/-- Python list subscript l[i]: valid for -len <= i < len, with negative
indices counting from the end; otherwise IndexError (None here). -/
def pyGet (l : List α) (i : Int) : Option α :=
  if 0 ≤ i then l.get? i.toNat
  else if 0 ≤ (l.length : Int) + i then l.get? ((l.length : Int) + i).toNat
  else Option.none

/-- Python list assignment l[i] = a under the same index rule. -/
def pySet (l : List α) (i : Int) (a : α) : Option (List α) :=
  if 0 ≤ i then (if i < (l.length : Int) then Option.some (l.set i.toNat a) else Option.none)
  else if 0 ≤ (l.length : Int) + i then Option.some (l.set ((l.length : Int) + i).toNat a)
  else Option.none

/-- Scheduler.exists: subscripts the schedule list and reports whether an
IndexError was raised. -/
def Scheduler.exists_ (l : List Schedule) (i : Int) : Bool :=
  (pyGet l i).isSome

/-- Scheduler.remove: self._schedules.pop(schedule_id) with the IndexError
swallowed, so an invalid index is a no-op and a valid one (negative
included) removes the element at that position. -/
def Scheduler.remove (l : List Schedule) (i : Int) : List Schedule :=
  if 0 ≤ i then
    (if i < (l.length : Int) then l.eraseIdx i.toNat else l)
  else if 0 ≤ (l.length : Int) + i then l.eraseIdx ((l.length : Int) + i).toNat
  else l

/-- Scheduler.add: a schedule without id is appended under the next
sequential id; otherwise the entry at that list index is replaced
(failing like the Python subscript assignment when the stored id is not a
valid index). -/
def Scheduler.add_sched (l : List Schedule) (s : Schedule) :
    Except PyErr (List Schedule) :=
  if s.id = PyVal.none then
    Except.ok (l ++ [{ s with id := PyVal.int (l.length : Int) }])
  else
    match s.id with
    | PyVal.int i =>
      match pySet l i s with
      | Option.some l2 => Except.ok l2
      | Option.none => Except.error PyErr.indexError
    | _ => Except.error PyErr.typeError

-- Scheduler.load and Scheduler.save (manager.py lines 1659-1687).

/-- One record of the persisted store: a fresh Schedule, from_config, then
add.  A non-dictionary record fails at the items() call. -/
def Scheduler.load_one (cat : Catalog) (acc : List Schedule) (cfg : PyVal) :
    Except PyErr (List Schedule) :=
  match cfg with
  | PyVal.dict d =>
    match Schedule.from_config cat Schedule.new d with
    | Except.error e => Except.error e
    | Except.ok sch => Scheduler.add_sched acc sch
  | _ => Except.error PyErr.attributeError

/-- The record loop of Scheduler.load. -/
def Scheduler.load_all (cat : Catalog) (acc : List Schedule)
    (store : List PyVal) : Except PyErr (List Schedule) :=
  foldExcept (Scheduler.load_one cat) acc store

/-- Scheduler.load over an already parsed store: any exception while
loading is caught and turns into sys.exit(1), modelled as the error value
1 (the process exit status). -/
def Scheduler.load (cat : Catalog) (store : List PyVal) :
    Except Nat (List Schedule) :=
  match Scheduler.load_all cat [] store with
  | Except.error _ => Except.error 1
  | Except.ok l => Except.ok l

/-- Scheduler.save: serializes every schedule; a raising to_config
propagates to the caller. -/
def Scheduler.save (l : List Schedule) : Except PyErr PyVal :=
  match mapExcept Schedule.to_config l with
  | Except.error e => Except.error e
  | Except.ok cfgs => Except.ok (PyVal.list cfgs)

-- Scheduler.execute (manager.py lines 1602-1621).

/-- Scheduler.execute(schedule): a logged no-op when the schedule is
already running; otherwise a ScriptRunner is constructed (recording the
launch time), attached through add_runner, and started.  The attached and
the started runner are the same object, so the resulting state holds the
started runner. -/
def Scheduler.execute (s : Schedule) (now : Nat) : Schedule :=
  if s.is_running then s
  else s.add_runner ((ScriptRunner.new_runner s.script now).start)

-- The Scheduler background loop (manager.py lines 1556-1599).

/-- Whether isinstance(condition, cls) holds for a registry class. -/
def Condition.isInstanceOf (cls : CondClass) (c : Condition) : Bool :=
  match cls, c.data with
  | CondClass.onStartup, CondData.simple SimpleCondType.onStartup => true
  | CondClass.onCCUInitialized, CondData.simple SimpleCondType.onCCUInitialized => true
  | CondClass.onTime, CondData.simple SimpleCondType.onTime => true
  | CondClass.onDeviceEvent, CondData.onDeviceEvent _ => true
  | _, _ => false

/-- Membership test behind _schedules_with_condition_type. -/
def Schedule.has_condition_type (cls : CondClass) (s : Schedule) : Bool :=
  s.conditions.any (Condition.isInstanceOf cls)

/-- The state the Scheduler thread owns: the schedule collection and the
two one-shot phase flags, both initialized to False. -/
structure SchedulerState where
  schedules : List Schedule
  on_startup_executed : Bool
  on_ccu_init_executed : Bool
deriving DecidableEq

/-- One phase batch: for schedule in _schedules_with_condition_type(cls):
self.execute(schedule).  Execution mutates the schedule objects in place,
which the map models. -/
def Scheduler.exec_batch (cls : CondClass) (l : List Schedule) (now : Nat) :
    List Schedule :=
  l.map (fun s => if Schedule.has_condition_type cls s then Scheduler.execute s now else s)

/-- One iteration of the body of Scheduler.run: the startup phase runs
when its flag is still unset and then sets it; the ccu-init phase runs
when its flag is unset and the manager reports _events_initialized, and
then sets its flag.  Neither flag is ever cleared. -/
def Scheduler.run_once (events_initialized : Bool) (now : Nat)
    (st : SchedulerState) : SchedulerState :=
  let st1 :=
    if st.on_startup_executed then st
    else { st with
      schedules := Scheduler.exec_batch CondClass.onStartup st.schedules now,
      on_startup_executed := true }
  if st1.on_ccu_init_executed then st1
  else if events_initialized then
    { st1 with
      schedules := Scheduler.exec_batch CondClass.onCCUInitialized st1.schedules now,
      on_ccu_init_executed := true }
  else st1

/-- Any finite number of iterations of the loop; each iteration reads the
current value of the externally set _events_initialized flag and the
current time. -/
def Scheduler.run_loop (st : SchedulerState) : List (Bool × Nat) → SchedulerState
  | [] => st
  | (ei, now) :: rest => Scheduler.run_loop (Scheduler.run_once ei now st) rest

/-- Whether the startup batch runs in an iteration entered in state st. -/
def Scheduler.startup_fires (st : SchedulerState) : Bool :=
  !st.on_startup_executed

/-- Whether the ccu-init batch runs in an iteration entered in state st
with the given _events_initialized value (the startup phase never touches
the ccu flag, so the entry state decides). -/
def Scheduler.ccu_fires (st : SchedulerState) (ei : Bool) : Bool :=
  !st.on_ccu_init_executed && ei

/-- How many iterations of a run execute the startup batch. -/
def Scheduler.count_startup_fires (st : SchedulerState) :
    List (Bool × Nat) → Nat
  | [] => 0
  | (ei, now) :: rest =>
    (if Scheduler.startup_fires st then 1 else 0) +
      Scheduler.count_startup_fires (Scheduler.run_once ei now st) rest

/-- How many iterations of a run execute the ccu-init batch. -/
def Scheduler.count_ccu_fires (st : SchedulerState) :
    List (Bool × Nat) → Nat
  | [] => 0
  | (ei, now) :: rest =>
    (if Scheduler.ccu_fires st ei then 1 else 0) +
      Scheduler.count_ccu_fires (Scheduler.run_once ei now st) rest

-- The Events log (manager.py lines 1532-1552) and the manager event hook
-- _on_value_updated (lines 1511-1518).

/-- The Event Log object: the ordered buffer and the lifetime counter. -/
structure Events (E : Type) where
  events : List E
  num_events_total : Nat
deriving DecidableEq

/-- Events(): empty buffer, zero lifetime counter. -/
def Events.empty : Events E :=
  ⟨[], 0⟩

/-- Events.add_event: count, append, then evict the oldest entry when the
buffer holds more than 1000. -/
def Events.add_event (s : Events E) (e : E) : Events E :=
  let es := s.events ++ [e]
  ⟨if 1000 < es.length then es.tail else es, s.num_events_total + 1⟩

/-- The value-update notification delivered by the device-event feed. -/
structure UpdatedParam where
  last_updated : PyVal
  last_changed : PyVal
  param : Param
  value : PyVal
  formatted : String
deriving DecidableEq

/-- The entry _on_value_updated builds for the Event Log. -/
structure EventRecord where
  time : PyVal
  time_changed : PyVal
  param : Param
  value : PyVal
  formated_value : String
deriving DecidableEq

/-- The manager state the event hook can reach: the Event Log and the
scheduler it owns. -/
structure ManagerState where
  events : Events EventRecord
  scheduler : SchedulerState
deriving DecidableEq

/-- The event record built from a notification. -/
def EventRecord.of_param (p : UpdatedParam) : EventRecord :=
  ⟨p.last_updated, p.last_changed, p.param, p.value, p.formatted⟩

/-- Manager._on_value_updated (manager.py lines 1511-1518): the entire
body appends one record to the Event Log. -/
def Manager.on_value_updated (m : ManagerState) (p : UpdatedParam) :
    ManagerState :=
  { m with events := m.events.add_event (EventRecord.of_param p) }

/-- Modelled from the spec: the repository source contains no push-style
evaluation for ConditionOnDeviceEvent (no on_event method exists and no
caller evaluates device-event conditions); spec section 4.2 defines
OnEvent(event) as true iff the event parameter reference equals the
condition parameter and the event kind (changed when event.time equals
event.timeChanged, updated otherwise) equals the condition event kind. -/
def ConditionOnDeviceEvent.on_event_spec (f : DevEventFields) (e : EventRecord) :
    Bool :=
  (match f.param with
   | Option.some p => decide (p = e.param)
   | Option.none => false) &&
  decide (f.event_type =
    (if e.time = e.time_changed then PyVal.str sChanged else PyVal.str sUpdated))

-- Predicates used in the statements of the claims below.

/-- The instance attribute dictionary of a condition either does not
shadow type_name or shadows it with the class value (the only shadow the
setattr loop of from_config can create, since the loaded record carried
the type_name that selected the class). -/
def Condition.shadow_ok (c : Condition) : Bool :=
  match lookupAttr c.attrs sTypeName with
  | Option.none => true
  | Option.some v => decide (v = PyVal.str c.classTypeName)

/-- A device-event condition is fully resolved against the catalog and the
catalog resolves its stored addresses back to the very same objects;
parameterless conditions are always resolved. -/
def Condition.resolved_ok (cat : Catalog) (c : Condition) : Bool :=
  match c.data with
  | CondData.simple _ => true
  | CondData.onDeviceEvent f =>
    match f.device, f.channel, f.param with
    | Option.some d, Option.some ch, Option.some p =>
      decide (cat.find_device (PyVal.str d.address) = Option.some d) &&
      decide (d.channel_by_address (PyVal.str ch.address) = Option.some ch) &&
      decide (ch.values_get (PyVal.str p.id) = Option.some p)
    | _, _, _ => false

/-- Conjunction of the two round-trip side conditions. -/
def Condition.cond_ok (cat : Catalog) (c : Condition) : Bool :=
  c.shadow_ok && c.resolved_ok cat

/-- The four record keys every stored device-event condition carries
(Condition.to_config always writes all four). -/
def devEventKeysOK (cdict : List (String × PyVal)) : Bool :=
  (lookupAttr cdict sDeviceAddress).isSome &&
  (lookupAttr cdict sChannelAddress).isSome &&
  (lookupAttr cdict sParamId).isSome &&
  (lookupAttr cdict sEventType).isSome

/-- A well-formed stored condition record: a dictionary carrying a
recognized type_name, and for the device-event type the four variant
keys. -/
def wf_condcfg (ccfg : PyVal) : Bool :=
  match ccfg with
  | PyVal.dict cdict =>
    match lookupAttr cdict sTypeName with
    | Option.some tn =>
      match Condition.get? tn with
      | Option.some CondClass.onDeviceEvent => devEventKeysOK cdict
      | Option.some _ => true
      | Option.none => false
    | Option.none => false
  | _ => false

/-- A well-formed key of a stored schedule record: the conditions key maps
to a list of well-formed condition records; the store format never writes
the keys is_running (a setter-less property) or id. -/
def wf_record_key (kv : String × PyVal) : Bool :=
  if kv.1 = sConditions then
    match kv.2 with
    | PyVal.list conds => conds.all wf_condcfg
    | _ => false
  else decide (kv.1 ≠ sIsRunning) && decide (kv.1 ≠ sId)

/-- A well-formed stored schedule record. -/
def wf_record (cfg : PyVal) : Bool :=
  match cfg with
  | PyVal.dict d => d.all wf_record_key
  | _ => false

/-- A well-formed persisted store, the shape Scheduler.save writes. -/
def wf_store (store : List PyVal) : Bool :=
  store.all wf_record

/-- The constructor-assigned attributes of a Schedule (the known fields of
a stored record besides conditions). -/
def scheduleKnownKeys : List String :=
  [sId, sName, sKeepRunning, sScript, sLastTriggered]

-- Concrete sample data used by witnesses and counterexamples.

def sDevA : String := "dev1"

def sChanA : String := "chan1"

def sParamA : String := "p1"

def sTitleA : String := "temp"

def sScriptA : String := "x.py"

def sSchedA : String := "s1"

def sPet : String := "pet"

def sCatV : String := "cat"

def sUnknownType : String := "no_such_type"

def paramW : Param := ⟨sParamA, sTitleA⟩

def channelW : Channel := ⟨sChanA, [(sParamA, paramW)]⟩

def deviceW : Device := ⟨sDevA, [channelW]⟩

def catalogW : Catalog := ⟨[deviceW]⟩

def emptyCatalog : Catalog := ⟨[]⟩

def resolvedFields : DevEventFields :=
  ⟨Option.some deviceW, Option.some channelW, Option.some paramW, PyVal.str sUpdated⟩

def devCondW : Condition := ⟨CondData.onDeviceEvent resolvedFields, []⟩

def startupCondW : Condition := ⟨CondData.simple SimpleCondType.onStartup, []⟩

def inertCondW : Condition := ⟨CondData.onDeviceEvent DevEventFields.new, []⟩

def scheduleW : Schedule :=
  ⟨PyVal.none, PyVal.str sSchedA, PyVal.bool true, PyVal.str sScriptA,
   [startupCondW, devCondW], PyVal.none, Option.none, []⟩

def scheduleInert : Schedule :=
  ⟨PyVal.none, PyVal.str sSchedA, PyVal.bool true, PyVal.str sScriptA,
   [inertCondW], PyVal.none, Option.none, []⟩

def runnerAliveW : ScriptRunner :=
  ⟨PyVal.str sScriptA, [], Option.none, 0, Option.none, true⟩

def scheduleRunningW : Schedule :=
  ⟨PyVal.none, PyVal.str sSchedA, PyVal.bool false, PyVal.str sScriptA,
   [], PyVal.none, Option.some runnerAliveW, []⟩

def devCondCfgW : List (String × PyVal) :=
  [(sTypeName, PyVal.str sOnDeviceEvent), (sDeviceAddress, PyVal.str sDevA),
   (sChannelAddress, PyVal.str sChanA), (sParamId, PyVal.str sParamA),
   (sEventType, PyVal.str sUpdated)]

def storeW : List PyVal :=
  [PyVal.dict [(sName, PyVal.str sSchedA), (sKeepRunning, PyVal.bool false),
    (sScript, PyVal.str sScriptA),
    (sConditions, PyVal.list [PyVal.dict devCondCfgW])]]

def badCondCfgW : List (String × PyVal) :=
  [(sTypeName, PyVal.str sUnknownType)]

def storeBadW : List PyVal :=
  [PyVal.dict [(sName, PyVal.str sSchedA),
    (sConditions, PyVal.list [PyVal.dict badCondCfgW])]]

-- Generic lemmas about the Except folds.

/-- A fold whose steps all succeed from any state satisfying an invariant
succeeds and preserves the invariant. -/
theorem foldExcept_total_inv (step : β → α → Except PyErr β) (P : β → Prop)
    (l : List α)
    (h : ∀ b x, x ∈ l → P b → ∃ b2, step b x = Except.ok b2 ∧ P b2) :
    ∀ b, P b → ∃ b2, foldExcept step b l = Except.ok b2 ∧ P b2 := by
  induction l with
  | nil => exact fun b hb => ⟨b, rfl, hb⟩
  | cons x xs ih =>
    intro b hb
    obtain ⟨b2, hstep, hb2⟩ := h b x (List.mem_cons_self x xs) hb
    obtain ⟨b3, hfold, hb3⟩ :=
      ih (fun b y hy hb => h b y (List.mem_cons_of_mem x hy) hb) b2 hb2
    exact ⟨b3, by simp [foldExcept, hstep, hfold], hb3⟩

/-- A fold containing an element whose step fails from every state fails. -/
theorem foldExcept_mem_error (step : β → α → Except PyErr β) {l : List α}
    {x : α} (hx : x ∈ l) (h : ∀ b, ∃ e, step b x = Except.error e) :
    ∀ b, ∃ e, foldExcept step b l = Except.error e := by
  induction l with
  | nil => cases hx
  | cons y ys ih =>
    intro b
    rcases List.mem_cons.mp hx with rfl | hx2
    · obtain ⟨e, he⟩ := h b
      exact ⟨e, by simp [foldExcept, he]⟩
    · cases hstep : step b y with
      | error e => exact ⟨e, by simp [foldExcept, hstep]⟩
      | ok b2 =>
        obtain ⟨e, he⟩ := ih hx2 b2
        exact ⟨e, by simp [foldExcept, hstep, he]⟩

/-- A comprehension containing a failing element fails. -/
theorem mapExcept_mem_error (f : α → Except PyErr β) {l : List α} {x : α}
    (hx : x ∈ l) (h : ∃ e, f x = Except.error e) :
    ∃ e, mapExcept f l = Except.error e := by
  induction l with
  | nil => cases hx
  | cons y ys ih =>
    rcases List.mem_cons.mp hx with rfl | hx2
    · obtain ⟨e, he⟩ := h
      exact ⟨e, by simp [mapExcept, he]⟩
    · cases hstep : f y with
      | error e => exact ⟨e, by simp [mapExcept, hstep]⟩
      | ok b2 =>
        obtain ⟨e, he⟩ := ih hx2
        exact ⟨e, by simp [mapExcept, hstep, he]⟩

-- Claim C1.

/-- Claim C1 (amended): execute is a logged no-op when the active runner of
the schedule is alive; otherwise it attaches exactly one freshly
constructed and started ScriptRunner, whose start timestamp is the launch
time, and changes nothing else on the schedule.  In particular the
last_triggered field is left unchanged: no assignment to it exists in the
source, so it is not stamped with the launch time as the original claim
states. -/
theorem C1_execute_behaviour (s : Schedule) (now : Nat) :
    (s.is_running = true → Scheduler.execute s now = s) ∧
    (s.is_running = false →
      Scheduler.execute s now =
        { s with runner := Option.some (ScriptRunner.mk s.script [] Option.none now Option.none true) } ∧
      (Scheduler.execute s now).last_triggered = s.last_triggered) := by
  constructor
  · intro h
    simp [Scheduler.execute, h]
  · intro h
    constructor
    · simp [Scheduler.execute, h, Schedule.add_runner, ScriptRunner.new_runner,
        ScriptRunner.start]
    · simp [Scheduler.execute, h, Schedule.add_runner]

/-- Witness for C1: the no-op branch on a schedule with a live runner and
the launch branch on a fresh schedule. -/
theorem C1_execute_behaviour_witness :
    (Scheduler.execute scheduleRunningW 7 = scheduleRunningW) ∧
    (Scheduler.execute Schedule.new 42 =
      { Schedule.new with runner := Option.some (ScriptRunner.mk Schedule.new.script [] Option.none 42 Option.none true) } ∧
     (Scheduler.execute Schedule.new 42).last_triggered =
       Schedule.new.last_triggered) :=
  ⟨(C1_execute_behaviour scheduleRunningW 7).1 (by decide),
   (C1_execute_behaviour Schedule.new 42).2 (by decide)⟩

/-- Counterexample for C1 as stated: executing a fresh idle schedule at
time 42 leaves last_triggered at None, not at the launch timestamp. -/
theorem C1_counterexample :
    Schedule.is_running Schedule.new = false ∧
    (Scheduler.execute Schedule.new 42).last_triggered = PyVal.none ∧
    (Scheduler.execute Schedule.new 42).last_triggered ≠ PyVal.int 42 := by
  decide

-- Claim C2.

/-- Claim C2: the device-event hook _on_value_updated only appends one
record to the Event Log; the scheduler state, its schedules and their
runners are untouched.  No push-style on_event evaluation exists in the
source and no schedule is executed reactively on event arrival, contrary
to the claim. -/
theorem C2_event_hook_only_logs (m : ManagerState) (p : UpdatedParam) :
    (Manager.on_value_updated m p).scheduler = m.scheduler ∧
    (Manager.on_value_updated m p).events =
      m.events.add_event (EventRecord.of_param p) :=
  ⟨rfl, rfl⟩

-- Claim C4.

/-- The buffer of add_event when the buffer is full. -/
theorem add_event_events_big (s : Events E) (e : E)
    (h : s.events.length = 1000) :
    (s.add_event e).events = (s.events ++ [e]).tail := by
  simp [Events.add_event, h]

/-- The buffer of add_event when the buffer is not full. -/
theorem add_event_events_small (s : Events E) (e : E)
    (h : s.events.length + 1 ≤ 1000) :
    (s.add_event e).events = s.events ++ [e] := by
  have hc : ¬ 1000 < s.events.length + 1 := by omega
  simp [Events.add_event, hc]

/-- The lifetime counter of add_event always increments. -/
theorem add_event_total (s : Events E) (e : E) :
    (s.add_event e).num_events_total = s.num_events_total + 1 :=
  rfl

/-- Closed form of a fold of add_event from a buffer within capacity: the
buffer keeps the most recent 1000 entries in insertion order and the
counter counts every add. -/
theorem foldl_add_event (l : List E) :
    ∀ s : Events E, s.events.length ≤ 1000 →
      (List.foldl Events.add_event s l).events =
        (s.events ++ l).drop (s.events.length + l.length - 1000) ∧
      (List.foldl Events.add_event s l).num_events_total =
        s.num_events_total + l.length := by
  induction l with
  | nil =>
    intro s hs
    simp [Nat.sub_eq_zero_of_le hs]
  | cons e l ih =>
    intro s hs
    rw [List.foldl_cons]
    by_cases h : 1000 < s.events.length + 1
    · have hlen : s.events.length = 1000 := by omega
      have hev : (s.add_event e).events = (s.events ++ [e]).tail :=
        add_event_events_big s e hlen
      have hlen1 : (s.add_event e).events.length ≤ 1000 := by
        rw [hev]
        simp [hlen]
      obtain ⟨ih1, ih2⟩ := ih (s.add_event e) hlen1
      have hne : s.events ≠ [] := by
        intro hnil
        rw [hnil] at hlen
        simp at hlen
      obtain ⟨a, t, hat⟩ := List.exists_cons_of_ne_nil hne
      have ht : t.length = 999 := by
        have h0 := hlen
        rw [hat] at h0
        simpa using h0
      have hs1ev : (s.add_event e).events = t ++ [e] := by
        rw [hev, hat]
        simp
      constructor
      · rw [ih1, hs1ev, hat]
        have e1 : (t ++ [e]).length + l.length - 1000 = l.length := by
          simp only [List.length_append, List.length_singleton, ht]
          omega
        have e2 : (a :: t).length + (e :: l).length - 1000 = l.length + 1 := by
          simp only [List.length_cons, ht]
          omega
        rw [e1, e2, List.append_assoc, List.singleton_append, List.cons_append,
          List.drop_succ_cons]
      · rw [ih2, add_event_total]
        simp only [List.length_cons]
        omega
    · have hle : s.events.length + 1 ≤ 1000 := by omega
      have hev : (s.add_event e).events = s.events ++ [e] :=
        add_event_events_small s e hle
      have hlen1 : (s.add_event e).events.length ≤ 1000 := by
        rw [hev]
        simpa using hle
      obtain ⟨ih1, ih2⟩ := ih (s.add_event e) hlen1
      constructor
      · rw [ih1, hev, List.append_assoc]
        have e1 : (s.events ++ [e]).length + l.length - 1000 =
            s.events.length + (e :: l).length - 1000 := by
          simp only [List.length_append, List.length_singleton, List.length_cons,
            List.length_nil]
          omega
        rw [e1]
        rfl
      · rw [ih2, add_event_total]
        simp only [List.length_cons]
        omega

/-- Claim C4: 1001 adds into an empty Event Log leave exactly the last
1000 entries in insertion order (the single oldest entry evicted) while
the lifetime counter reports 1001; every add increments the counter and
eviction never decreases it. -/
theorem C4_event_log (E : Type) (l : List E) (h : l.length = 1001) :
    (List.foldl Events.add_event Events.empty l).events = l.tail ∧
    (List.foldl Events.add_event Events.empty l).events.length = 1000 ∧
    (List.foldl Events.add_event Events.empty l).num_events_total = 1001 ∧
    ∀ (s : Events E) (e : E),
      (s.add_event e).num_events_total = s.num_events_total + 1 := by
  obtain ⟨h1, h2⟩ := foldl_add_event l Events.empty (by norm_num [Events.empty])
  refine ⟨?_, ?_, ?_, fun s e => rfl⟩
  · rw [h1]
    simp only [Events.empty, List.length_nil, List.nil_append, h]
    norm_num [List.drop_one]
  · rw [h1]
    simp only [Events.empty, List.length_nil, List.nil_append, h]
    norm_num [List.length_drop, h]
  · rw [h2]
    simp only [Events.empty, h]

/-- Witness for C4 at a concrete list of 1001 entries. -/
theorem C4_event_log_witness :
    (List.foldl Events.add_event Events.empty
      (List.replicate 1001 (0 : Nat))).events =
      (List.replicate 1001 (0 : Nat)).tail ∧
    (List.foldl Events.add_event Events.empty
      (List.replicate 1001 (0 : Nat))).events.length = 1000 ∧
    (List.foldl Events.add_event Events.empty
      (List.replicate 1001 (0 : Nat))).num_events_total = 1001 ∧
    ∀ (s : Events Nat) (e : Nat),
      (s.add_event e).num_events_total = s.num_events_total + 1 :=
  C4_event_log Nat (List.replicate 1001 0) (by rw [List.length_replicate])

-- Claim C3.

/-- After any iteration of the loop body the startup flag is set. -/
theorem run_once_startup_flag (ei : Bool) (now : Nat) (st : SchedulerState) :
    (Scheduler.run_once ei now st).on_startup_executed = true := by
  unfold Scheduler.run_once
  cases h1 : st.on_startup_executed <;> simp [h1] <;> split <;> simp_all <;>
    split <;> simp_all

/-- The ccu-init flag is never cleared by an iteration. -/
theorem run_once_ccu_monotone (ei : Bool) (now : Nat) (st : SchedulerState)
    (h : st.on_ccu_init_executed = true) :
    (Scheduler.run_once ei now st).on_ccu_init_executed = true := by
  unfold Scheduler.run_once
  cases h1 : st.on_startup_executed <;> simp [h1] <;> split <;> simp_all

/-- An iteration whose entry state lets the ccu-init batch run sets the
ccu-init flag. -/
theorem run_once_ccu_of_fires (ei : Bool) (now : Nat) (st : SchedulerState)
    (h : Scheduler.ccu_fires st ei = true) :
    (Scheduler.run_once ei now st).on_ccu_init_executed = true := by
  unfold Scheduler.ccu_fires at h
  rw [Bool.and_eq_true, Bool.not_eq_true'] at h
  unfold Scheduler.run_once
  cases h1 : st.on_startup_executed <;> simp [h1, h.1, h.2]

/-- Once the startup flag is set, no later iteration runs the startup
batch. -/
theorem count_startup_zero (inputs : List (Bool × Nat)) :
    ∀ st : SchedulerState, st.on_startup_executed = true →
      Scheduler.count_startup_fires st inputs = 0 := by
  induction inputs with
  | nil => intro st _; rfl
  | cons p rest ih =>
    intro st h
    obtain ⟨ei, now⟩ := p
    have hf : Scheduler.startup_fires st = false := by
      simp [Scheduler.startup_fires, h]
    simp [Scheduler.count_startup_fires, hf,
      ih (Scheduler.run_once ei now st) (run_once_startup_flag ei now st)]

/-- Once the ccu-init flag is set, no later iteration runs the ccu-init
batch. -/
theorem count_ccu_zero (inputs : List (Bool × Nat)) :
    ∀ st : SchedulerState, st.on_ccu_init_executed = true →
      Scheduler.count_ccu_fires st inputs = 0 := by
  induction inputs with
  | nil => intro st _; rfl
  | cons p rest ih =>
    intro st h
    obtain ⟨ei, now⟩ := p
    have hf : Scheduler.ccu_fires st ei = false := by
      simp [Scheduler.ccu_fires, h]
    simp [Scheduler.count_ccu_fires, hf,
      ih (Scheduler.run_once ei now st) (run_once_ccu_monotone ei now st h)]

/-- The startup batch runs at most once in any run. -/
theorem count_startup_le_one (st : SchedulerState)
    (inputs : List (Bool × Nat)) :
    Scheduler.count_startup_fires st inputs ≤ 1 := by
  cases inputs with
  | nil => simp [Scheduler.count_startup_fires]
  | cons p rest =>
    obtain ⟨ei, now⟩ := p
    have hz := count_startup_zero rest (Scheduler.run_once ei now st)
      (run_once_startup_flag ei now st)
    simp [Scheduler.count_startup_fires, hz]
    split <;> omega

/-- The ccu-init batch runs at most once in any run. -/
theorem count_ccu_le_one (inputs : List (Bool × Nat)) :
    ∀ st : SchedulerState, Scheduler.count_ccu_fires st inputs ≤ 1 := by
  induction inputs with
  | nil => intro st; simp [Scheduler.count_ccu_fires]
  | cons p rest ih =>
    intro st
    obtain ⟨ei, now⟩ := p
    cases hf : Scheduler.ccu_fires st ei with
    | false => simp [Scheduler.count_ccu_fires, hf, ih]
    | true =>
      have hz := count_ccu_zero rest (Scheduler.run_once ei now st)
        (run_once_ccu_of_fires ei now st hf)
      simp [Scheduler.count_ccu_fires, hf, hz]

/-- The startup flag is never cleared over a whole run. -/
theorem run_loop_startup_flag (inputs : List (Bool × Nat)) :
    ∀ st : SchedulerState, st.on_startup_executed = true →
      (Scheduler.run_loop st inputs).on_startup_executed = true := by
  induction inputs with
  | nil => intro st h; exact h
  | cons p rest ih =>
    intro st _
    obtain ⟨ei, now⟩ := p
    exact ih (Scheduler.run_once ei now st) (run_once_startup_flag ei now st)

/-- The ccu-init flag is never cleared over a whole run. -/
theorem run_loop_ccu_flag (inputs : List (Bool × Nat)) :
    ∀ st : SchedulerState, st.on_ccu_init_executed = true →
      (Scheduler.run_loop st inputs).on_ccu_init_executed = true := by
  induction inputs with
  | nil => intro st h; exact h
  | cons p rest ih =>
    intro st h
    obtain ⟨ei, now⟩ := p
    exact ih (Scheduler.run_once ei now st) (run_once_ccu_monotone ei now st h)

/-- Claim C3: over any finite run of the background loop, from any state,
the startup batch and the ccu-init batch each run at most once, and each
one-shot flag, once set, is never cleared. -/
theorem C3_one_shot_phases (st : SchedulerState) (inputs : List (Bool × Nat)) :
    Scheduler.count_startup_fires st inputs ≤ 1 ∧
    Scheduler.count_ccu_fires st inputs ≤ 1 ∧
    (st.on_startup_executed = true →
      (Scheduler.run_loop st inputs).on_startup_executed = true) ∧
    (st.on_ccu_init_executed = true →
      (Scheduler.run_loop st inputs).on_ccu_init_executed = true) :=
  ⟨count_startup_le_one st inputs, count_ccu_le_one inputs st,
   run_loop_startup_flag inputs st, run_loop_ccu_flag inputs st⟩

/-- Witness for C3 at a concrete state with both flags set and two
iterations. -/
theorem C3_one_shot_phases_witness :
    Scheduler.count_startup_fires ⟨[], true, true⟩ [(true, 0), (true, 1)] ≤ 1 ∧
    Scheduler.count_ccu_fires ⟨[], true, true⟩ [(true, 0), (true, 1)] ≤ 1 ∧
    (Scheduler.run_loop ⟨[], true, true⟩
      [(true, 0), (true, 1)]).on_startup_executed = true ∧
    (Scheduler.run_loop ⟨[], true, true⟩
      [(true, 0), (true, 1)]).on_ccu_init_executed = true := by
  obtain ⟨a, b, c, d⟩ := C3_one_shot_phases ⟨[], true, true⟩ [(true, 0), (true, 1)]
  exact ⟨a, b, c rfl, d rfl⟩

-- Claim C5.

/-- A list subscript is defined exactly below the length. -/
theorem get?_isSome_iff (l : List α) : ∀ n : Nat,
    ((l.get? n).isSome = true) ↔ n < l.length := by
  induction l with
  | nil => intro n; simp
  | cons x t ih =>
    intro n
    cases n with
    | zero => simp
    | succ m => simpa using ih m

/-- Removing position k shifts every later position down by one. -/
theorem eraseIdx_get?_ge (l : List α) : ∀ (k j : Nat), k < l.length → k ≤ j →
    (l.eraseIdx k).get? j = l.get? (j + 1) := by
  induction l with
  | nil => intro k j hk _; simp at hk
  | cons x t ih =>
    intro k j hk hj
    cases k with
    | zero => simp [List.eraseIdx]
    | succ k =>
      cases j with
      | zero => omega
      | succ j =>
        have hk2 : k < t.length := by simpa using hk
        have hj2 : k ≤ j := by omega
        simpa [List.eraseIdx] using ih k j hk2 hj2

/-- Claim C5 (amended): the collection operations follow Python list index
semantics.  exists is true exactly for the Python-valid indices, which for
nonnegative ids means id below the current count but also includes the
negative indices counting from the end; remove is a no-op only for
indices outside the Python-valid range, while a valid index (negative
included) removes the schedule at that position and shifts every later
schedule down by one id; add appends under the next sequential id when the
id is unset and otherwise replaces the entry at the stored index. -/
theorem C5_collection_ops (l : List Schedule) (i : Int) :
    (Scheduler.exists_ l i = true ↔
      -(l.length : Int) ≤ i ∧ i < (l.length : Int)) ∧
    (0 ≤ i → (Scheduler.exists_ l i = true ↔ i < (l.length : Int))) ∧
    ((i < -(l.length : Int) ∨ (l.length : Int) ≤ i) →
      Scheduler.remove l i = l) ∧
    (0 ≤ i → i < (l.length : Int) → ∀ j : Nat, i.toNat ≤ j →
      (Scheduler.remove l i).get? j = l.get? (j + 1)) ∧
    (∀ s : Schedule, s.id = PyVal.none →
      Scheduler.add_sched l s =
        Except.ok (l ++ [{ s with id := PyVal.int (l.length : Int) }])) ∧
    (∀ (s : Schedule) (k : Int), 0 ≤ k → k < (l.length : Int) →
      s.id = PyVal.int k →
      Scheduler.add_sched l s = Except.ok (l.set k.toNat s)) := by
  refine ⟨?_, ?_, ?_, ?_, ?_, ?_⟩
  · unfold Scheduler.exists_ pyGet
    split
    case isTrue h =>
      rw [get?_isSome_iff]
      omega
    case isFalse h =>
      split
      case isTrue h2 =>
        rw [get?_isSome_iff]
        omega
      case isFalse h2 =>
        simp
        omega
  · intro h0
    unfold Scheduler.exists_ pyGet
    rw [if_pos h0, get?_isSome_iff]
    omega
  · intro hout
    unfold Scheduler.remove
    rcases hout with hlt | hge
    · rw [if_neg (by omega), if_neg (by omega)]
    · by_cases h0 : 0 ≤ i
      · rw [if_pos h0, if_neg (by omega)]
      · omega
  · intro h0 hlen j hj
    unfold Scheduler.remove
    rw [if_pos h0, if_pos hlen]
    exact eraseIdx_get?_ge l i.toNat j (by omega) hj
  · intro s hid
    simp [Scheduler.add_sched, hid]
  · intro s k h0 hk hid
    have hne : s.id ≠ PyVal.none := by
      rw [hid]
      intro hc
      cases hc
    unfold Scheduler.add_sched
    rw [if_neg hne, hid]
    simp [pySet, h0, hk]

/-- Counterexample for C5 as stated: after a single add the collection
holds one schedule with id 0; the id -1 is outside the claimed bounds and
belongs to no schedule, yet exists reports true for it and remove with it
is not a no-op but deletes the last schedule. -/
theorem C5_counterexample :
    Scheduler.add_sched [] Schedule.new =
      Except.ok [{ Schedule.new with id := PyVal.int 0 }] ∧
    Scheduler.exists_ [{ Schedule.new with id := PyVal.int 0 }] (-1) = true ∧
    ¬ (0 ≤ (-1 : Int)) ∧
    Scheduler.remove [{ Schedule.new with id := PyVal.int 0 }] (-1) = [] := by
  refine ⟨rfl, by decide, by decide, by decide⟩

/-- Witness for C5: the amended clauses applied at concrete collections
and indices, with every hypothesis discharged. -/
theorem C5_collection_ops_witness :
    (Scheduler.exists_ [scheduleW] 0 = true ↔ (0 : Int) < (1 : Int)) ∧
    (Scheduler.remove [scheduleW] 5 = [scheduleW]) ∧
    ((Scheduler.remove [scheduleW] 0).get? 0 = [scheduleW].get? 1) ∧
    (Scheduler.add_sched [scheduleW] Schedule.new =
      Except.ok ([scheduleW] ++ [{ Schedule.new with id := PyVal.int 1 }])) ∧
    (Scheduler.add_sched [scheduleW] { Schedule.new with id := PyVal.int 0 } =
      Except.ok ([scheduleW].set 0 { Schedule.new with id := PyVal.int 0 })) :=
  ⟨by
      have h := (C5_collection_ops [scheduleW] 0).2.1 (by decide)
      simpa using h,
   (C5_collection_ops [scheduleW] 5).2.2.1 (by decide),
   (C5_collection_ops [scheduleW] 0).2.2.2.1 (by decide) (by decide) 0 (by decide),
   by
      have h := (C5_collection_ops [scheduleW] 0).2.2.2.2.1 Schedule.new (by decide)
      simpa using h,
   (C5_collection_ops [scheduleW] 0).2.2.2.2.2
     { Schedule.new with id := PyVal.int 0 } 0 (by decide) (by decide) (by decide)⟩

-- Claim C6.

/-- A condition record with an unrecognized type_name fails from every
schedule state with the PMUserError raise of Schedule.from_config. -/
theorem cond_step_unknown (cat : Catalog) (cdict : List (String × PyVal))
    (tn : PyVal) (h1 : lookupAttr cdict sTypeName = Option.some tn)
    (h2 : Condition.get? tn = Option.none) (s : Schedule) :
    Schedule.cond_step cat s (PyVal.dict cdict) =
      Except.error PyErr.pmUserError := by
  simp [Schedule.cond_step, dictGet, h1, h2]

/-- Claim C6: a persisted store containing a condition record whose
type_name is unrecognized is a fatal load error: Schedule.from_config
raises for that record and Scheduler.load terminates the process with
exit status 1 instead of dropping the record. -/
theorem C6_unknown_type_fatal (cat : Catalog) (store : List PyVal)
    (cfgd : List (String × PyVal)) (conds : List PyVal)
    (cdict : List (String × PyVal)) (tn : PyVal)
    (h1 : PyVal.dict cfgd ∈ store)
    (h2 : (sConditions, PyVal.list conds) ∈ cfgd)
    (h3 : PyVal.dict cdict ∈ conds)
    (h4 : lookupAttr cdict sTypeName = Option.some tn)
    (h5 : Condition.get? tn = Option.none) :
    (∃ e, Schedule.from_config cat Schedule.new cfgd = Except.error e) ∧
    Scheduler.load cat store = Except.error 1 := by
  have hcond : ∀ s : Schedule, ∃ e,
      Schedule.cond_step cat s (PyVal.dict cdict) = Except.error e :=
    fun s => ⟨PyErr.pmUserError, cond_step_unknown cat cdict tn h4 h5 s⟩
  have hfoldc : ∀ s : Schedule, ∃ e,
      foldExcept (Schedule.cond_step cat) s conds = Except.error e :=
    foldExcept_mem_error (Schedule.cond_step cat) h3 hcond
  have hkey : ∀ s : Schedule, ∃ e,
      Schedule.key_step cat s (sConditions, PyVal.list conds) =
        Except.error e := by
    intro s
    obtain ⟨e, he⟩ := hfoldc s
    exact ⟨e, by simp [Schedule.key_step, he]⟩
  have hfoldk : ∀ s : Schedule, ∃ e,
      foldExcept (Schedule.key_step cat) s cfgd = Except.error e :=
    foldExcept_mem_error (Schedule.key_step cat) h2 hkey
  have hfc : ∃ e, Schedule.from_config cat Schedule.new cfgd = Except.error e :=
    hfoldk Schedule.new
  refine ⟨hfc, ?_⟩
  have hload1 : ∀ acc : List Schedule, ∃ e,
      Scheduler.load_one cat acc (PyVal.dict cfgd) = Except.error e := by
    intro acc
    obtain ⟨e, he⟩ := hfc
    exact ⟨e, by simp [Scheduler.load_one, he]⟩
  obtain ⟨e, he⟩ :=
    foldExcept_mem_error (Scheduler.load_one cat) h1 hload1 []
  simp [Scheduler.load, Scheduler.load_all, he]

/-- Witness for C6: a concrete store whose only schedule carries one
condition with an unknown type_name. -/
theorem C6_unknown_type_fatal_witness :
    (∃ e, Schedule.from_config emptyCatalog Schedule.new
      [(sName, PyVal.str sSchedA),
       (sConditions, PyVal.list [PyVal.dict badCondCfgW])] = Except.error e) ∧
    Scheduler.load emptyCatalog storeBadW = Except.error 1 :=
  C6_unknown_type_fatal emptyCatalog storeBadW
    [(sName, PyVal.str sSchedA), (sConditions, PyVal.list [PyVal.dict badCondCfgW])]
    [PyVal.dict badCondCfgW] badCondCfgW (PyVal.str sUnknownType)
    (by decide) (by decide) (by decide) (by decide) (by decide)

-- Claim C7.

/-- A device-event condition without a resolved parameter can never match
under the spec-modelled push evaluation. -/
theorem on_event_spec_param_none (f : DevEventFields)
    (h : f.param = Option.none) (e : EventRecord) :
    ConditionOnDeviceEvent.on_event_spec f e = false := by
  simp [ConditionOnDeviceEvent.on_event_spec, h]

/-- ConditionOnDeviceEvent.from_config never raises on a record carrying
the four keys: a failed resolution returns early with the remaining
references None, leaving the condition inert. -/
theorem devevent_from_config_ok (cat : Catalog)
    (cdict : List (String × PyVal)) (h : devEventKeysOK cdict = true) :
    ∃ f, ConditionOnDeviceEvent.from_config cat cdict = Except.ok f ∧
      (f.param = Option.none →
        ∀ e, ConditionOnDeviceEvent.on_event_spec f e = false) := by
  unfold devEventKeysOK at h
  simp only [Bool.and_eq_true, Option.isSome_iff_exists] at h
  obtain ⟨⟨⟨⟨v1, hv1⟩, v2, hv2⟩, v3, hv3⟩, v4, hv4⟩ := h
  cases hfd : cat.find_device v1 with
  | none =>
    refine ⟨DevEventFields.new, ?_, fun _ e => on_event_spec_param_none _ rfl e⟩
    simp [ConditionOnDeviceEvent.from_config, dictGet, hv1, hfd]
  | some dev =>
    cases hch : dev.channel_by_address v2 with
    | none =>
      refine ⟨⟨Option.some dev, Option.none, Option.none, PyVal.none⟩, ?_,
        fun _ e => on_event_spec_param_none _ rfl e⟩
      simp [ConditionOnDeviceEvent.from_config, dictGet, hv1, hfd, hv2, hch]
    | some ch =>
      cases hpv : ch.values_get v3 with
      | none =>
        refine ⟨⟨Option.some dev, Option.some ch, Option.none, PyVal.none⟩, ?_,
          fun _ e => on_event_spec_param_none _ rfl e⟩
        simp [ConditionOnDeviceEvent.from_config, dictGet, hv1, hfd, hv2, hch,
          hv3, hpv]
      | some p =>
        refine ⟨⟨Option.some dev, Option.some ch, Option.some p, v4⟩, ?_, ?_⟩
        · simp [ConditionOnDeviceEvent.from_config, dictGet, hv1, hfd, hv2,
            hch, hv3, hpv, hv4]
        · intro hp
          cases hp

/-- Setattr with a key that is neither the property is_running nor id
succeeds and leaves the id untouched. -/
theorem pySetattr_ok_id (s : Schedule) (k : String) (v : PyVal)
    (hir : k ≠ sIsRunning) (hid : k ≠ sId) :
    ∃ s2, Schedule.pySetattr s k v = Except.ok s2 ∧ s2.id = s.id := by
  unfold Schedule.pySetattr
  rw [if_neg hir]
  refine ⟨_, rfl, ?_⟩
  rw [if_neg hid]
  split_ifs <;> rfl

/-- A well-formed condition record loads from every schedule state and
leaves the schedule id untouched. -/
theorem cond_step_ok_of_wf (cat : Catalog) (ccfg : PyVal)
    (h : wf_condcfg ccfg = true) (s : Schedule) :
    ∃ s2, Schedule.cond_step cat s ccfg = Except.ok s2 ∧ s2.id = s.id := by
  cases ccfg with
  | dict cdict =>
    simp only [wf_condcfg] at h
    cases hl : lookupAttr cdict sTypeName with
    | none => simp [hl] at h
    | some tn =>
      simp only [hl] at h
      cases hg : Condition.get? tn with
      | none => simp [hg] at h
      | some cls =>
        simp only [hg] at h
        cases cls with
        | onStartup =>
          exact ⟨s.add_condition
              ⟨CondData.simple SimpleCondType.onStartup, condSetattrs [] cdict⟩,
            by simp [Schedule.cond_step, dictGet, hl, hg,
              Condition.load_config], rfl⟩
        | onCCUInitialized =>
          exact ⟨s.add_condition
              ⟨CondData.simple SimpleCondType.onCCUInitialized,
               condSetattrs [] cdict⟩,
            by simp [Schedule.cond_step, dictGet, hl, hg,
              Condition.load_config], rfl⟩
        | onTime =>
          exact ⟨s.add_condition
              ⟨CondData.simple SimpleCondType.onTime, condSetattrs [] cdict⟩,
            by simp [Schedule.cond_step, dictGet, hl, hg,
              Condition.load_config], rfl⟩
        | onDeviceEvent =>
          obtain ⟨f, hf, _⟩ := devevent_from_config_ok cat cdict h
          exact ⟨s.add_condition ⟨CondData.onDeviceEvent f, []⟩,
            by simp [Schedule.cond_step, dictGet, hl, hg,
              Condition.load_config, hf], rfl⟩
  | str a => simp [wf_condcfg] at h
  | int a => simp [wf_condcfg] at h
  | bool a => simp [wf_condcfg] at h
  | none => simp [wf_condcfg] at h
  | list a => simp [wf_condcfg] at h

/-- A well-formed record key loads from every schedule state and leaves
the schedule id untouched. -/
theorem key_step_ok_of_wf (cat : Catalog) (kv : String × PyVal)
    (h : wf_record_key kv = true) (s : Schedule) :
    ∃ s2, Schedule.key_step cat s kv = Except.ok s2 ∧ s2.id = s.id := by
  unfold wf_record_key at h
  by_cases hc : kv.1 = sConditions
  · rw [if_pos hc] at h
    cases hv : kv.2 with
    | list conds =>
      simp only [hv] at h
      have hstep : ∀ (b : Schedule) (x : PyVal), x ∈ conds → b.id = s.id →
          ∃ b2, Schedule.cond_step cat b x = Except.ok b2 ∧ b2.id = s.id := by
        intro b x hx hb
        obtain ⟨b2, hok, hid⟩ :=
          cond_step_ok_of_wf cat x (by
            rw [List.all_eq_true] at h
            exact h x hx) b
        exact ⟨b2, hok, by rw [hid, hb]⟩
      obtain ⟨s2, hok, hid⟩ :=
        foldExcept_total_inv (Schedule.cond_step cat) (fun b => b.id = s.id)
          conds hstep s rfl
      exact ⟨s2, by simp [Schedule.key_step, hc, hv, hok], hid⟩
    | str a => simp [hv] at h
    | int a => simp [hv] at h
    | bool a => simp [hv] at h
    | none => simp [hv] at h
    | dict a => simp [hv] at h
  · rw [if_neg hc] at h
    simp only [Bool.and_eq_true, decide_eq_true_eq] at h
    obtain ⟨s2, hok, hid⟩ := pySetattr_ok_id s kv.1 kv.2 h.1 h.2
    exact ⟨s2, by simp [Schedule.key_step, hc, hok], hid⟩

/-- A well-formed schedule record loads on a fresh schedule and leaves the
id unset, so the subsequent add appends it. -/
theorem from_config_ok_of_wf (cat : Catalog) (d : List (String × PyVal))
    (h : d.all wf_record_key = true) :
    ∃ s2, Schedule.from_config cat Schedule.new d = Except.ok s2 ∧
      s2.id = PyVal.none := by
  have hstep : ∀ (b : Schedule) (kv : String × PyVal), kv ∈ d →
      b.id = PyVal.none →
      ∃ b2, Schedule.key_step cat b kv = Except.ok b2 ∧ b2.id = PyVal.none := by
    intro b kv hkv hb
    obtain ⟨b2, hok, hid⟩ := key_step_ok_of_wf cat kv (by
      rw [List.all_eq_true] at h
      exact h kv hkv) b
    exact ⟨b2, hok, by rw [hid, hb]⟩
  exact foldExcept_total_inv (Schedule.key_step cat) (fun b => b.id = PyVal.none)
    d hstep Schedule.new rfl

/-- Claim C7: loading a stored device-event condition whose device,
channel or parameter no longer resolves does not raise; the resulting
condition is inert (its parameter is None and the spec-modelled push
evaluation never matches), and a whole well-formed store still loads
against any catalog, so the remaining conditions and schedules load. -/
theorem C7_unresolved_inert_loads :
    (∀ (cat : Catalog) (cdict : List (String × PyVal)),
      devEventKeysOK cdict = true →
      ∃ f, ConditionOnDeviceEvent.from_config cat cdict = Except.ok f ∧
        (f.param = Option.none →
          ∀ e, ConditionOnDeviceEvent.on_event_spec f e = false)) ∧
    (∀ (cat : Catalog) (store : List PyVal), wf_store store = true →
      ∃ l, Scheduler.load cat store = Except.ok l) := by
  refine ⟨devevent_from_config_ok, ?_⟩
  intro cat store h
  unfold wf_store at h
  have hstep : ∀ (acc : List Schedule) (cfg : PyVal), cfg ∈ store → True →
      ∃ acc2, Scheduler.load_one cat acc cfg = Except.ok acc2 ∧ True := by
    intro acc cfg hcfg _
    have hwf : wf_record cfg = true := by
      rw [List.all_eq_true] at h
      exact h cfg hcfg
    cases cfg with
    | dict d =>
      simp only [wf_record] at hwf
      obtain ⟨sch, hok, hid⟩ := from_config_ok_of_wf cat d hwf
      exact ⟨acc ++ [{ sch with id := PyVal.int (acc.length : Int) }],
        by simp [Scheduler.load_one, hok, Scheduler.add_sched, hid], trivial⟩
    | str a => simp [wf_record] at hwf
    | int a => simp [wf_record] at hwf
    | bool a => simp [wf_record] at hwf
    | none => simp [wf_record] at hwf
    | list a => simp [wf_record] at hwf
  obtain ⟨l, hok, _⟩ :=
    foldExcept_total_inv (Scheduler.load_one cat) (fun _ => True) store hstep
      [] trivial
  exact ⟨l, by simp [Scheduler.load, Scheduler.load_all, hok]⟩

/-- Witness for C7: the stored device-event record resolved against an
empty catalog loads inert, and the whole sample store loads against the
empty catalog. -/
theorem C7_unresolved_inert_loads_witness :
    (∃ f, ConditionOnDeviceEvent.from_config emptyCatalog devCondCfgW =
        Except.ok f ∧
      (f.param = Option.none →
        ∀ e, ConditionOnDeviceEvent.on_event_spec f e = false)) ∧
    (∃ l, Scheduler.load emptyCatalog storeW = Except.ok l) :=
  ⟨C7_unresolved_inert_loads.1 emptyCatalog devCondCfgW (by decide),
   C7_unresolved_inert_loads.2 emptyCatalog storeW (by decide)⟩

-- Claim C8.

/-- Claim C8 (amended): from_config does not ignore unknown top-level
keys.  Every key that is none of the constructor-assigned attributes, not
conditions, not the setter-less property is_running and not one of the
object-reference attributes, is setattr-ed onto the schedule, creating or
overwriting an instance attribute of that name; the known fields are left
unchanged. -/
theorem C8_unknown_keys_setattr (cat : Catalog) (s : Schedule)
    (cfg : List (String × PyVal))
    (h : ∀ kv ∈ cfg, kv.1 ∉ scheduleKnownKeys ∧ kv.1 ≠ sConditions ∧
      kv.1 ≠ sIsRunning ∧ kv.1 ≠ sRunnerAttr ∧ kv.1 ≠ sManagerAttr) :
    Schedule.from_config cat s cfg =
      Except.ok { s with
        extra := List.foldl (fun a kv => insertAttr a kv.1 kv.2) s.extra cfg } := by
  induction cfg generalizing s with
  | nil => rfl
  | cons kv rest ih =>
    obtain ⟨hnk, hnc, hnr, _, _⟩ := h kv (List.mem_cons_self kv rest)
    simp only [scheduleKnownKeys, List.mem_cons, List.mem_singleton,
      List.not_mem_nil, or_false, not_or] at hnk
    obtain ⟨hid, hname, hkr, hscript, hlt⟩ := hnk
    have hkey : Schedule.key_step cat s kv =
        Except.ok { s with extra := insertAttr s.extra kv.1 kv.2 } := by
      simp [Schedule.key_step, hnc, Schedule.pySetattr, hnr, hid, hname, hkr,
        hscript, hlt]
    have htail := ih { s with extra := insertAttr s.extra kv.1 kv.2 }
      (fun kv2 hkv2 => h kv2 (List.mem_cons_of_mem kv hkv2))
    simp only [Schedule.from_config, foldExcept, hkey] at htail ⊢
    simpa using htail

/-- Witness for C8: a single unknown key on a fresh schedule against the
empty catalog. -/
theorem C8_unknown_keys_setattr_witness :
    Schedule.from_config emptyCatalog Schedule.new [(sPet, PyVal.str sCatV)] =
      Except.ok { Schedule.new with
        extra := List.foldl (fun a kv => insertAttr a kv.1 kv.2)
          Schedule.new.extra [(sPet, PyVal.str sCatV)] } :=
  C8_unknown_keys_setattr emptyCatalog Schedule.new [(sPet, PyVal.str sCatV)]
    (by decide)

/-- Counterexample for C8 as stated: loading the record with the single
unrecognized key pet changes the schedule, creating the instance attribute
pet, so an unrecognized key is not ignored. -/
theorem C8_counterexample :
    Schedule.from_config emptyCatalog Schedule.new [(sPet, PyVal.str sCatV)] =
      Except.ok { Schedule.new with extra := [(sPet, PyVal.str sCatV)] } ∧
    { Schedule.new with extra := [(sPet, PyVal.str sCatV)] } ≠ Schedule.new := by
  refine ⟨rfl, by decide⟩

-- Claim C10.

/-- Claim C10: a device-event condition left unresolved (device, channel
or parameter None) raises AttributeError from to_config, so Schedule
serialization fails and Scheduler.save fails for any collection holding a
schedule with such an inert condition, even though loading it was
tolerated. -/
theorem C10_inert_to_config_raises (l : List Schedule) (s : Schedule)
    (c : Condition) (f : DevEventFields)
    (hs : s ∈ l) (hc : c ∈ s.conditions)
    (hd : c.data = CondData.onDeviceEvent f)
    (hf : f.device = Option.none ∨ f.channel = Option.none ∨
      f.param = Option.none) :
    Condition.to_config c = Except.error PyErr.attributeError ∧
    (∃ e, Schedule.to_config s = Except.error e) ∧
    (∃ e, Scheduler.save l = Except.error e) := by
  have h1 : Condition.to_config c = Except.error PyErr.attributeError := by
    cases hdev : f.device with
    | none => simp [Condition.to_config, hd, hdev]
    | some d =>
      cases hch : f.channel with
      | none => simp [Condition.to_config, hd, hdev, hch]
      | some ch =>
        cases hp : f.param with
        | none => simp [Condition.to_config, hd, hdev, hch, hp]
        | some p =>
          rw [hdev, hch, hp] at hf
          rcases hf with h | h | h <;> cases h
  have h2 : ∃ e, Schedule.to_config s = Except.error e := by
    obtain ⟨e, he⟩ :=
      mapExcept_mem_error Condition.to_config hc ⟨PyErr.attributeError, h1⟩
    exact ⟨e, by simp [Schedule.to_config, he]⟩
  refine ⟨h1, h2, ?_⟩
  obtain ⟨e, he⟩ := mapExcept_mem_error Schedule.to_config hs h2
  exact ⟨e, by simp [Scheduler.save, he]⟩

/-- Witness for C10 at the sample schedule holding one inert device-event
condition. -/
theorem C10_inert_to_config_raises_witness :
    Condition.to_config inertCondW = Except.error PyErr.attributeError ∧
    (∃ e, Schedule.to_config scheduleInert = Except.error e) ∧
    (∃ e, Scheduler.save [scheduleInert] = Except.error e) :=
  C10_inert_to_config_raises [scheduleInert] scheduleInert inertCondW
    DevEventFields.new (by decide) (by decide) (by decide) (Or.inl rfl)

-- Claim C9.

/-- Under the shadow side condition the attribute read self.type_name
yields the class type_name. -/
theorem type_name_val_of_shadow (c : Condition) (h : c.shadow_ok = true) :
    c.type_name_val = PyVal.str c.classTypeName := by
  unfold Condition.shadow_ok at h
  unfold Condition.type_name_val
  cases hl : lookupAttr c.attrs sTypeName with
  | none => simp [hl]
  | some v =>
    simp only [hl] at h ⊢
    exact of_decide_eq_true h

/-- One resolved condition round-trips: its to_config record loads through
cond_step on any schedule into an appended condition with the same variant
data. -/
theorem cond_round_trip (cat : Catalog) (c : Condition)
    (h : Condition.cond_ok cat c = true) :
    ∃ cdict, Condition.to_config c = Except.ok (PyVal.dict cdict) ∧
      ∀ s : Schedule, ∃ attrs2,
        Schedule.cond_step cat s (PyVal.dict cdict) =
          Except.ok (s.add_condition ⟨c.data, attrs2⟩) := by
  rw [Condition.cond_ok, Bool.and_eq_true] at h
  obtain ⟨hsh, hres⟩ := h
  have htn := type_name_val_of_shadow c hsh
  cases hc : c.data with
  | simple t =>
    have hcl : c.classTypeName = t.type_name := by
      unfold Condition.classTypeName
      rw [hc]
    refine ⟨[(sTypeName, PyVal.str t.type_name)], ?_, ?_⟩
    · simp only [Condition.to_config, hc, htn, hcl]
    · intro s
      refine ⟨condSetattrs [] [(sTypeName, PyVal.str t.type_name)], ?_⟩
      cases t <;>
        simp [Schedule.cond_step, dictGet, lookupAttr, Condition.get?,
          Condition.load_config, SimpleCondType.type_name, hc,
          sOnStartup, sOnCCUInitialized, sOnTime, sOnDeviceEvent]
  | onDeviceEvent f =>
    simp only [Condition.resolved_ok, hc] at hres
    obtain ⟨fd, fc, fp, fe⟩ := f
    cases fd with
    | none => simp at hres
    | some d =>
    cases fc with
    | none => simp at hres
    | some ch =>
    cases fp with
    | none => simp at hres
    | some p =>
    simp only [Bool.and_eq_true, decide_eq_true_eq] at hres
    obtain ⟨⟨hfd, hfc⟩, hfp⟩ := hres
    have hcl : c.classTypeName = sOnDeviceEvent := by
      unfold Condition.classTypeName
      rw [hc]
    refine ⟨[(sTypeName, PyVal.str sOnDeviceEvent),
      (sDeviceAddress, PyVal.str d.address),
      (sChannelAddress, PyVal.str ch.address),
      (sParamId, PyVal.str p.id), (sEventType, fe)], ?_, ?_⟩
    · simp only [Condition.to_config, hc, htn, hcl]
    · intro s
      refine ⟨[], ?_⟩
      simp [Schedule.cond_step, dictGet, lookupAttr, Condition.get?,
        Condition.load_config, ConditionOnDeviceEvent.from_config, hc,
        hfd, hfc, hfp,
        sTypeName, sDeviceAddress, sChannelAddress, sParamId, sEventType,
        sOnStartup, sOnCCUInitialized, sOnTime, sOnDeviceEvent]

/-- A list of resolved conditions round-trips: serializing then loading
through the condition steps appends conditions with the same variant data
and touches nothing else on the schedule. -/
theorem conds_round_trip (cat : Catalog) (conds : List Condition)
    (h : conds.all (Condition.cond_ok cat) = true) :
    ∃ cfgs, mapExcept Condition.to_config conds = Except.ok cfgs ∧
      ∀ s : Schedule, ∃ s2,
        foldExcept (Schedule.cond_step cat) s cfgs = Except.ok s2 ∧
        s2.conditions.map Condition.data =
          s.conditions.map Condition.data ++ conds.map Condition.data ∧
        s2.id = s.id ∧ s2.name = s.name ∧ s2.keep_running = s.keep_running ∧
        s2.script = s.script ∧ s2.last_triggered = s.last_triggered ∧
        s2.runner = s.runner ∧ s2.extra = s.extra := by
  induction conds with
  | nil => exact ⟨[], rfl, fun s => ⟨s, rfl, by simp⟩⟩
  | cons c rest ih =>
    rw [List.all_cons, Bool.and_eq_true] at h
    obtain ⟨cdict, hto, hstep⟩ := cond_round_trip cat c h.1
    obtain ⟨cfgs, hmap, hfold⟩ := ih h.2
    refine ⟨PyVal.dict cdict :: cfgs, by simp [mapExcept, hto, hmap], ?_⟩
    intro s
    obtain ⟨attrs2, hs1⟩ := hstep s
    obtain ⟨s2, hf2, hdata, hid, hname, hkr, hscr, hlt, hrun, hex⟩ :=
      hfold (s.add_condition ⟨c.data, attrs2⟩)
    refine ⟨s2, by simp [foldExcept, hs1, hf2], ?_, ?_, ?_, ?_, ?_, ?_, ?_, ?_⟩
    · rw [hdata]
      simp [Schedule.add_condition]
    · rw [hid]
      rfl
    · rw [hname]
      rfl
    · rw [hkr]
      rfl
    · rw [hscr]
      rfl
    · rw [hlt]
      rfl
    · rw [hrun]
      rfl
    · rw [hex]
      rfl

/-- Claim C9 (amended): for every schedule whose conditions satisfy the
round-trip side conditions (device-event conditions fully resolved against
the live catalog, which resolves their stored addresses back to the same
objects; no foreign type_name shadow), feeding to_config into from_config
on a fresh schedule reconstructs the same name, keep_running flag, script
and the same condition variant data for every condition variant. -/
theorem C9_round_trip (cat : Catalog) (s : Schedule)
    (h : s.conditions.all (Condition.cond_ok cat) = true) :
    ∃ cfg s2,
      Schedule.to_config s = Except.ok (PyVal.dict cfg) ∧
      Schedule.from_config cat Schedule.new cfg = Except.ok s2 ∧
      s2.name = s.name ∧ s2.keep_running = s.keep_running ∧
      s2.script = s.script ∧
      s2.conditions.map Condition.data = s.conditions.map Condition.data := by
  obtain ⟨cfgs, hmap, hfold⟩ := conds_round_trip cat s.conditions h
  obtain ⟨s2, hf, hdata, hid, hname, hkr, hscr, hlt, hrun, hex⟩ :=
    hfold { Schedule.new with name := s.name, keep_running := s.keep_running, script := s.script }
  refine ⟨[(sName, s.name), (sKeepRunning, s.keep_running),
    (sScript, s.script), (sConditions, PyVal.list cfgs)], s2,
    ?_, ?_, ?_, ?_, ?_, ?_⟩
  · simp [Schedule.to_config, hmap]
  · have k1 : Schedule.key_step cat Schedule.new (sName, s.name) =
        Except.ok { Schedule.new with name := s.name } := rfl
    have k2 : Schedule.key_step cat { Schedule.new with name := s.name }
        (sKeepRunning, s.keep_running) =
        Except.ok { Schedule.new with name := s.name, keep_running := s.keep_running } := rfl
    have k3 : Schedule.key_step cat
        { Schedule.new with name := s.name, keep_running := s.keep_running }
        (sScript, s.script) =
        Except.ok { Schedule.new with name := s.name, keep_running := s.keep_running, script := s.script } := rfl
    have k4 : Schedule.key_step cat
        { Schedule.new with name := s.name, keep_running := s.keep_running, script := s.script }
        (sConditions, PyVal.list cfgs) =
        Except.ok s2 := hf
    simp only [Schedule.from_config, foldExcept, k1, k2, k3, k4]
  · rw [hname]
  · rw [hkr]
  · rw [hscr]
  · rw [hdata]
    simp [Schedule.new]

/-- Counterexample for C9 as stated: a schedule holding an inert
device-event condition (a recognized variant, produced by a tolerated
load) cannot even be serialized, so no record exists to feed back into
from_config. -/
theorem C9_round_trip_counterexample :
    Schedule.to_config scheduleInert = Except.error PyErr.attributeError :=
  rfl

/-- Witness for C9 at a schedule with one parameterless and one resolved
device-event condition against the sample catalog. -/
theorem C9_round_trip_witness :
    ∃ cfg s2,
      Schedule.to_config scheduleW = Except.ok (PyVal.dict cfg) ∧
      Schedule.from_config catalogW Schedule.new cfg = Except.ok s2 ∧
      s2.name = scheduleW.name ∧ s2.keep_running = scheduleW.keep_running ∧
      s2.script = scheduleW.script ∧
      s2.conditions.map Condition.data =
        scheduleW.conditions.map Condition.data :=
  C9_round_trip catalogW scheduleW (by decide)
